import Mathlib

/-!
Verification of the pipeline-orchestration and monitoring subsystem of the
DOU multi-agent repository (coordenador: main.py, orquestrador.py, monitor.py).

The Python source is shallowly embedded: file names and text are `List Char`,
a directory is a listing `List FileEntry` in operating-system order, each
worker subprocess invocation is summarised by the `ProcResult` the coordinator
observes, and the third-party JSON decoder (`json.loads`) is an opaque
parameter at its boundary.
-/

/-- A file on disk as the coordinator sees it: its (base) name and its
modification timestamp (`os.path.getmtime`). -/
structure FileEntry where
  name : List Char
  mtime : Nat
deriving DecidableEq, Repr

/-- Shorthand: the character list of a string literal. -/
def chars (s : String) : List Char := s.toList

/-- Decimal rendering of a natural number, as Python's str(n). -/
def natChars (n : Nat) : List Char := (Nat.repr n).toList

/-- Substring test: `containsSub s pat` — does `s` contain `pat` as a contiguous substring?
This is the file-name test performed by `glob.glob(dir + "/*" + padrao + "*")`
in `Orquestrador.encontrar_arquivo_mais_recente` (the patterns the coordinator
passes contain no glob metacharacters, so the glob is a pure substring match
over the names in the directory). -/
def containsSub : List Char → List Char → Bool
  | [], pat => pat.isPrefixOf ([] : List Char)
  | c :: rest, pat => pat.isPrefixOf (c :: rest) || containsSub rest pat

/-- Python's `max(files, key=os.path.getmtime)` over a nonempty list:
folds left keeping the current maximum, replacing it only on a strictly
greater key, so the first file attaining the maximum mtime wins. -/
def pyMax (a : FileEntry) (l : List FileEntry) : FileEntry :=
  l.foldl (fun best f => if best.mtime < f.mtime then f else best) a

/-- The files of a listing whose names match the pattern, in listing order
(the result of the glob in `encontrar_arquivo_mais_recente`). -/
def matchesOf (listing : List FileEntry) (padrao : List Char) : List FileEntry :=
  listing.filter (fun f => containsSub f.name padrao)

/-- The Artifact Resolver, `Orquestrador.encontrar_arquivo_mais_recente`
(orquestrador.py 347-371):
if the directory does not exist, return None; glob for names containing
`padrao`; if none match, return None; otherwise return
`max(arquivos, key=os.path.getmtime)`. -/
def encontrar_arquivo_mais_recente (dirExists : Bool) (listing : List FileEntry)
    (padrao : List Char) : Option FileEntry :=
  if !dirExists then none
  else
    match matchesOf listing padrao with
    | [] => none
    | a :: rest => some (pyMax a rest)

example : containsSub (chars "2024-03-01_secao3.csv") (chars "secao3") = true := by decide
example : containsSub (chars "2024-03-01_secao3.csv") (chars "processado_") = false := by decide
example : natChars 3 = [Char.ofNat 51] := by decide
example :
    encontrar_arquivo_mais_recente true
      [⟨chars "b.json", 5⟩, ⟨chars "a.json", 5⟩] (chars "json")
      = some ⟨chars "b.json", 5⟩ := by decide

/-- Helper for `pyReplaceDel`: walk the string left to right; `skip` counts
characters still to drop because they belong to an occurrence of the pattern
already recognised. -/
def pyReplaceDelAux (pat : List Char) : List Char → Nat → List Char
  | [], _ => []
  | _ :: rest, k + 1 => pyReplaceDelAux pat rest k
  | c :: rest, 0 =>
    if pat.isPrefixOf (c :: rest) ∧ pat ≠ [] then
      pyReplaceDelAux pat rest (pat.length - 1)
    else c :: pyReplaceDelAux pat rest 0

/-- Python's `s.replace(pat, "")`: delete every (left-to-right, non-overlapping)
occurrence of `pat` in `s`; the empty pattern deletes nothing. Used by
`executar_organizacao` as `nome_base.replace('processado_', '')`. -/
def pyReplaceDel (pat s : List Char) : List Char :=
  pyReplaceDelAux pat s 0

/-- Index of the last occurrence of `c` in the list, if any. -/
def lastIdxOf (c : Char) : List Char → Option Nat
  | [] => none
  | a :: rest =>
    match lastIdxOf c rest with
    | some i => some (i + 1)
    | none => if a = c then some 0 else none

/-- The root part of Python's `os.path.splitext(name)`: strip the extension
after the last dot, where the run of leading dots of the name does not count
as an extension separator. Used by `executar_organizacao` on the processed
file's base name. -/
def splitextRoot (s : List Char) : List Char :=
  let lead := s.takeWhile (fun c => c = Char.ofNat 46)
  let rest := s.dropWhile (fun c => c = Char.ofNat 46)
  match lastIdxOf (Char.ofNat 46) rest with
  | none => s
  | some i => lead ++ rest.take i

example : splitextRoot (chars "2024-03-01_secao3.json") = chars "2024-03-01_secao3" := by decide
example : pyReplaceDel (chars "processado_") (chars "processado_2024-03-01_secao3.json")
    = chars "2024-03-01_secao3.json" := by decide

def lbrace : Char := Char.ofNat 123
def rbrace : Char := Char.ofNat 125

/-- The current line: characters up to the next newline. -/
def lineOf (l : List Char) : List Char := l.takeWhile (fun c => c ≠ Char.ofNat 10)

/-- The candidate JSON substring that Python's
`re.search(r'(\x7b.*\x7d)', stdout)` extracts in `executar_indexacao`:
the match starts at the leftmost opening brace that is followed by a closing
brace on the same line (`.` does not cross newlines) and, being greedy,
extends to the last closing brace of that line. `none` when the regex finds
no match. -/
def jsonCandidate : List Char → Option (List Char)
  | [] => none
  | c :: rest =>
    if c = lbrace then
      match lastIdxOf rbrace (lineOf rest) with
      | some i => some (c :: (lineOf rest).take (i + 1))
      | none => jsonCandidate rest
    else jsonCandidate rest

example : jsonCandidate (chars "plain output, nothing here") = none := by decide

/-- What the coordinator observes of one worker subprocess run
(`subprocess.run(cmd, check=True, capture_output=True, text=True)`):
its exit code and its captured output streams. -/
structure ProcResult where
  exitCode : Nat
  stdout : List Char
  stderr : List Char
deriving DecidableEq, Repr

/-- How a stage of the pipeline fails in the orchestrator:
`execFailed stderr` — the worker exited non-zero, `check=True` raised
`CalledProcessError`, the except-block logged the captured stderr and
re-raised as `RuntimeError`; `outputMissing` — the worker exited zero but
neither the expected artifact nor any resolver fallback exists
(`FileNotFoundError`). Both abort the stage (and, uncaught, the run). -/
inductive StageError where
  | execFailed (stderr : List Char)
  | outputMissing
deriving DecidableEq, Repr

/-- The environment one `executar_*` stage call runs against: the subprocess
result the coordinator will observe, whether the expected output artifact
exists on disk afterwards, and the stage output directory's listing (used by
the resolver fallback; the directory itself was just created by
`os.makedirs(..., exist_ok=True)`, so it exists). -/
structure StageWorld where
  proc : ProcResult
  expectedExists : Bool
  dirListing : List FileEntry
deriving Repr

/-- Stage 1, `Orquestrador.executar_coleta` (orquestrador.py 38-95) for a target date
already formatted as `YYYY-MM-DD` (`dataStr`) and a section number: run the
collector; a non-zero exit raises (`execFailed` with the captured stderr);
otherwise the expected artifact is `{dataStr}_secao{secao}.json`, with a
resolver fallback on the pattern `{dataStr}_secao{secao}` when it is absent,
and `FileNotFoundError` when the fallback also fails. Paths are modelled by
their base names. -/
def executar_coleta (w : StageWorld) (dataStr : List Char) (secao : Nat) :
    Except StageError (List Char) :=
  if w.proc.exitCode ≠ 0 then .error (.execFailed w.proc.stderr)
  else
    let expected := dataStr ++ chars "_secao" ++ natChars secao ++ chars ".json"
    if w.expectedExists then .ok expected
    else
      match encontrar_arquivo_mais_recente true w.dirListing
          (dataStr ++ chars "_secao" ++ natChars secao) with
      | some f => .ok f.name
      | none => .error .outputMissing

/-- Stage 2, `Orquestrador.executar_processamento` (orquestrador.py 97-155): the
expected artifact is `processado_{basename(input)}`; fallback pattern is the
same name; non-zero exit raises with the captured stderr. -/
def executar_processamento (w : StageWorld) (inputName : List Char) :
    Except StageError (List Char) :=
  if w.proc.exitCode ≠ 0 then .error (.execFailed w.proc.stderr)
  else
    let expected := chars "processado_" ++ inputName
    if w.expectedExists then .ok expected
    else
      match encontrar_arquivo_mais_recente true w.dirListing
          (chars "processado_" ++ inputName) with
      | some f => .ok f.name
      | none => .error .outputMissing

/-- The output base name `executar_organizacao` derives (orquestrador.py
176-179): strip every `processado_` occurrence from the input's base name,
drop its extension, and append the configured format's extension. -/
def organize_output_name (inputName formato : List Char) : List Char :=
  splitextRoot (pyReplaceDel (chars "processado_") inputName) ++ chars "." ++ formato

/-- Stage 3, `Orquestrador.executar_organizacao` (orquestrador.py 157-219): non-zero
exit raises with the captured stderr; otherwise the expected artifact is
`organize_output_name`, with a resolver fallback on the extension-less base
name when it is absent. -/
def executar_organizacao (w : StageWorld) (inputName formato : List Char) :
    Except StageError (List Char) :=
  if w.proc.exitCode ≠ 0 then .error (.execFailed w.proc.stderr)
  else
    let nomeBase := splitextRoot (pyReplaceDel (chars "processado_") inputName)
    if w.expectedExists then .ok (nomeBase ++ chars "." ++ formato)
    else
      match encontrar_arquivo_mais_recente true w.dirListing nomeBase with
      | some f => .ok f.name
      | none => .error .outputMissing

/-- The document count of an indexing result: a number, or the marker
`'desconhecido'` (unknown) used by the degraded-success fallback. -/
inductive IndexTotal where
  | num (n : Nat)
  | desconhecido
deriving DecidableEq, Repr

/-- The indexing result dictionary as consumed by the coordinator: the
`success` flag (`resultado.get('success', False)`) and the `total` field. -/
structure IndexResult where
  success : Bool
  total : IndexTotal
deriving DecidableEq, Repr

/-- Stage 4, `Orquestrador.executar_indexacao` (orquestrador.py 221-269). `loads`
models the third-party JSON decoder at its boundary (`json.loads`; `none`
means it raised). A non-zero exit is caught and returned as
`{success: False, total: 0}` — it is NOT re-raised. On a zero exit the
regex candidate of stdout is decoded; if there is no candidate or decoding
raises, the optimistic fallback
`{success: True, message: ..., total: 'desconhecido'}` is returned. -/
def executar_indexacao (proc : ProcResult) (loads : List Char → Option IndexResult) :
    IndexResult :=
  if proc.exitCode ≠ 0 then { success := false, total := .num 0 }
  else
    match jsonCandidate proc.stdout with
    | none => { success := true, total := .desconhecido }
    | some s =>
      match loads s with
      | none => { success := true, total := .desconhecido }
      | some r => r

/-- The four pipeline stages, in order. -/
inductive Etapa where
  | coleta
  | processamento
  | organizacao
  | indexacao
deriving DecidableEq, Repr

/-- The per-stage status recorded in the final report of a full run. -/
inductive StageStatus where
  | concluido
  | falha
deriving DecidableEq, Repr

/-- The report `main` (modo completo) assembles and saves after the fourth
stage (main.py 122-149): the three artifact names, the indexing result, and
the indexing status (`'concluido' if resultado.get('success', False) else
'falha'`; the first three stages are always `'concluido'` whenever the report
exists, because any earlier failure aborts before the report is built). -/
structure Relatorio where
  coletaArq : List Char
  processamentoArq : List Char
  organizacaoArq : List Char
  indexacaoResultado : IndexResult
  indexacaoStatus : StageStatus
deriving DecidableEq, Repr

/-- The observable outcome of one coordinator invocation: the process exit
code returned by `main`, the saved report if any, and which stage workers
were spawned, in order. -/
structure RunOutcome where
  exitCode : Nat
  relatorio : Option Relatorio
  spawned : List Etapa
deriving DecidableEq, Repr

/-- Everything a full pipeline run (`main`, modo `completo`) depends on:
the target date (already `YYYY-MM-DD`-formatted) and section, the configured
output format (`formato_saida`, default csv), one `StageWorld` per
subprocess-backed stage, the index worker's subprocess result, and the JSON
decoder. -/
structure World where
  dataStr : List Char
  secao : Nat
  formato : List Char
  coleta : StageWorld
  processamento : StageWorld
  organizacao : StageWorld
  indexacao : ProcResult
  loads : List Char → Option IndexResult

/-- The full pipeline: `main` in modo `completo` (main.py 98-151, 213-215): the four stages run
in fixed order inside one try-block; any exception from stages 1-3 is caught
at line 213 and the invocation returns 1 with no report written and no later
stage invoked. Stage 4 (`executar_indexacao`) never raises: its result goes
into the report, whose indexing status is `falha` when `success` is false,
and the invocation returns 0. -/
def modo_completo (w : World) : RunOutcome :=
  match executar_coleta w.coleta w.dataStr w.secao with
  | .error _ => ⟨1, none, [.coleta]⟩
  | .ok a1 =>
    match executar_processamento w.processamento a1 with
    | .error _ => ⟨1, none, [.coleta, .processamento]⟩
    | .ok a2 =>
      match executar_organizacao w.organizacao a2 w.formato with
      | .error _ => ⟨1, none, [.coleta, .processamento, .organizacao]⟩
      | .ok a3 =>
        let r := executar_indexacao w.indexacao w.loads
        ⟨0,
         some ⟨a1, a2, a3, r, if r.success then .concluido else .falha⟩,
         [.coleta, .processamento, .organizacao, .indexacao]⟩

/-- The observable outcome of a partial (single-stage) coordinator run:
exit code, whether the stage's worker subprocess was ever spawned, and the
input artifact name handed to it if so. -/
structure PartialOutcome where
  exitCode : Nat
  workerSpawned : Bool
  input : Option (List Char)
deriving DecidableEq, Repr

/-- Partial run: `main` in modo `processamento` (main.py 159-174): resolve the most recent
file matching `{dataStr}_secao{secao}` in the `brutos` directory; if none,
log an error and return 1 without spawning the process worker; otherwise run
`executar_processamento` on it (a stage failure is caught at line 213 and
returns 1). -/
def modo_processamento (dataStr : List Char) (secao : Nat) (brutosDirExists : Bool)
    (brutosListing : List FileEntry) (sw : StageWorld) : PartialOutcome :=
  match encontrar_arquivo_mais_recente brutosDirExists brutosListing
      (dataStr ++ chars "_secao" ++ natChars secao) with
  | none => ⟨1, false, none⟩
  | some f =>
    match executar_processamento sw f.name with
    | .ok _ => ⟨0, true, some f.name⟩
    | .error _ => ⟨1, true, some f.name⟩

/-- Partial run: `main` in modo `organizacao` (main.py 176-191): resolve the most recent
file matching `processado_{dataStr}_secao{secao}` in the `processados`
directory; if none, return 1 without spawning the organize worker. -/
def modo_organizacao (dataStr : List Char) (secao : Nat) (formato : List Char)
    (processadosDirExists : Bool) (processadosListing : List FileEntry)
    (sw : StageWorld) : PartialOutcome :=
  match encontrar_arquivo_mais_recente processadosDirExists processadosListing
      (chars "processado_" ++ dataStr ++ chars "_secao" ++ natChars secao) with
  | none => ⟨1, false, none⟩
  | some f =>
    match executar_organizacao sw f.name formato with
    | .ok _ => ⟨0, true, some f.name⟩
    | .error _ => ⟨1, true, some f.name⟩

/-- Partial run: `main` in modo `busca` — the partial index run (main.py 193-208): resolve
the most recent file matching `processado_{dataStr}_secao{secao}` in the
`csv` directory; if none, return 1 without spawning the index worker;
otherwise run `executar_indexacao` on it (which never raises) and return 0. -/
def modo_busca (dataStr : List Char) (secao : Nat) (csvDirExists : Bool)
    (csvListing : List FileEntry) (indexProc : ProcResult)
    (loads : List Char → Option IndexResult) : PartialOutcome :=
  match encontrar_arquivo_mais_recente csvDirExists csvListing
      (chars "processado_" ++ dataStr ++ chars "_secao" ++ natChars secao) with
  | none => ⟨1, false, none⟩
  | some f =>
    let _ := executar_indexacao indexProc loads
    ⟨0, true, some f.name⟩

/-- Defaulting of the target date in `main` (main.py 79-89), with days numbered by
integers and `strptime` modelling `datetime.strptime(s, '%d-%m-%Y')` at its
boundary (`none` = `ValueError`, upon which `main` returns 1): an explicit
`--data` argument is parsed; with no argument the run targets
`datetime.now() - timedelta(days=1)`, the previous calendar day. -/
def chooseData (dataArg : Option (List Char)) (strptime : List Char → Option Int)
    (hoje : Int) : Option Int :=
  match dataArg with
  | some s => strptime s
  | none => some (hoje - 1)

/-- Defaulting of the section in `main` (main.py 92):
`args.secao if args.secao else 3`
— Python truthiness, so `None` (and the impossible 0, which argparse's
`choices=[1, 2, 3]` already excludes) falls back to section 3. -/
def chooseSecao (secaoArg : Option Nat) : Nat :=
  match secaoArg with
  | some s => if s ≠ 0 then s else 3
  | none => 3

/-- Modification-time order on files, the key of
`arquivos.sort(key=os.path.getmtime)` in `Monitor._limpar_arquivos_antigos`. -/
def mtimeLe (a b : FileEntry) : Prop := a.mtime ≤ b.mtime

instance : DecidableRel mtimeLe := fun a b => inferInstanceAs (Decidable (a.mtime ≤ b.mtime))

instance : IsTotal FileEntry mtimeLe := ⟨fun a b => Nat.le_total a.mtime b.mtime⟩

instance : IsTrans FileEntry mtimeLe := ⟨fun _ _ _ h h2 => Nat.le_trans h h2⟩

/-- Python's `arquivos.sort(key=os.path.getmtime)`: the listing in ascending
modification-time order (Python's sort is stable, as is this insertion
sort). -/
def sortByMtime (l : List FileEntry) : List FileEntry := l.insertionSort mtimeLe

/-- Python's slice `l[:-k]`: all but the last `k` elements when `k > 0`;
`l[:-0]` is `l[:0]`, the empty list. `_limpar_arquivos_antigos` deletes
exactly the files of `arquivos[:-max_arquivos]`. -/
def pyPrefixSlice (l : List FileEntry) (k : Nat) : List FileEntry :=
  if k = 0 then [] else l.take (l.length - k)

/-- The retention pass `Monitor._limpar_arquivos_antigos` (monitor.py 282-306) acting on the
directory's listing: if at most `maxArquivos` files are present, do nothing;
otherwise sort all files (whatever their origin) by modification time and
delete the files of `arquivos[:-max_arquivos]`, i.e. all but the
`maxArquivos` newest. The result is the listing of files that remain,
in their original order (deletion never renames, reorders or edits a kept
file; each `os.remove` is modelled as succeeding — the code ignores removal
errors). -/
def limpar_arquivos_antigos (listing : List FileEntry) (maxArquivos : Nat) :
    List FileEntry :=
  if listing.length ≤ maxArquivos then listing
  else
    let removidos := pyPrefixSlice (sortByMtime listing) maxArquivos
    listing.filter (fun f => decide (f ∉ removidos))

/-- The directory effect of `Monitor._salvar_status` (monitor.py 221-252):
write one fresh snapshot file into the status directory, then run the
retention pass with the hard-coded limit of 10. -/
def salvar_status (statusDir : List FileEntry) (novo : FileEntry) : List FileEntry :=
  limpar_arquivos_antigos (statusDir ++ [novo]) 10

/-- The outcome of one body execution inside `Monitor._loop_monitoramento`:
either the body ran to completion, or some step in it raised an exception
(every failure the body's operations can raise in normal thread operation is
an `Exception`, which the loop's except-clause catches). -/
inductive IterOutcome where
  | ok
  | raisesError
deriving DecidableEq, Repr

/-- What one pass of the monitor loop did, as seen from outside: the body
completed, or the body failed and the loop slept the fixed backoff
(`time.sleep(10)`) before continuing. -/
inductive LoopStep where
  | bodyCompleted
  | bodyFailedBackoff (seconds : Nat)
deriving DecidableEq, Repr

/-- The monitor loop `Monitor._loop_monitoramento` (monitor.py 88-118) over a finite trace of
iterations. Each trace entry holds the value of `self.executando` that the
`while` condition reads (the flag is written only by `Monitor.parar`, lines
76-86) and the outcome of the body if it runs. Returns the steps performed
and whether the loop exited because a flag read was `False` (rather than the
trace simply ending with the loop still live). The body sits in a
try-except: an exception yields a logged error and a 10-second sleep, after
which the `while` test runs again — there is no early-return or re-raise
path. -/
def loop_monitoramento : List (Bool × IterOutcome) → List LoopStep × Bool
  | [] => ([], false)
  | (executando, out) :: rest =>
    if executando then
      let cont := loop_monitoramento rest
      match out with
      | .ok => (LoopStep.bodyCompleted :: cont.1, cont.2)
      | .raisesError => (LoopStep.bodyFailedBackoff 10 :: cont.1, cont.2)
    else ([], true)

/-! ### Helper lemmas about the resolver's `max(key=mtime)` -/

theorem pyMax_cons (a f : FileEntry) (l : List FileEntry) :
    pyMax a (f :: l) = pyMax (if a.mtime < f.mtime then f else a) l := rfl

theorem pyMax_ge : ∀ (l : List FileEntry) (a x : FileEntry),
    x ∈ a :: l → x.mtime ≤ (pyMax a l).mtime := by
  intro l
  induction l with
  | nil =>
    intro a x hx
    rcases List.mem_singleton.mp hx with rfl
    exact Nat.le_refl _
  | cons f t ih =>
    intro a x hx
    rw [pyMax_cons]
    have hab : a.mtime ≤ (if a.mtime < f.mtime then f else a).mtime := by
      by_cases h : a.mtime < f.mtime
      · simpa [h] using Nat.le_of_lt h
      · simp [h]
    have hfb : f.mtime ≤ (if a.mtime < f.mtime then f else a).mtime := by
      by_cases h : a.mtime < f.mtime
      · simp [h]
      · simpa [h] using Nat.le_of_not_lt h
    have hbmax : ∀ y ∈ (if a.mtime < f.mtime then f else a) :: t,
        y.mtime ≤ (pyMax (if a.mtime < f.mtime then f else a) t).mtime :=
      fun y hy => ih _ y hy
    rcases List.mem_cons.mp hx with hxa | hx'
    · rw [hxa]
      exact Nat.le_trans hab (hbmax _ (List.mem_cons_self _ _))
    · rcases List.mem_cons.mp hx' with hxf | hxt
      · rw [hxf]
        exact Nat.le_trans hfb (hbmax _ (List.mem_cons_self _ _))
      · exact hbmax x (List.mem_cons_of_mem _ hxt)

theorem pyMax_first : ∀ (l : List FileEntry) (a : FileEntry),
    ∃ pre post, a :: l = pre ++ (pyMax a l) :: post ∧
      ∀ g ∈ pre, g.mtime < (pyMax a l).mtime := by
  intro l
  induction l with
  | nil =>
    intro a
    exact ⟨[], [], rfl, by simp⟩
  | cons f t ih =>
    intro a
    rw [pyMax_cons]
    by_cases h : a.mtime < f.mtime
    · rw [if_pos h]
      obtain ⟨pre, post, heq, hlt⟩ := ih f
      refine ⟨a :: pre, post, ?_, ?_⟩
      · simp only [List.cons_append]
        rw [← heq]
      · intro g hg
        rcases List.mem_cons.mp hg with hga | hg'
        · rw [hga]
          exact Nat.lt_of_lt_of_le h (pyMax_ge t f f (List.mem_cons_self f t))
        · exact hlt g hg'
    · rw [if_neg h]
      obtain ⟨pre, post, heq, hlt⟩ := ih a
      cases pre with
      | nil =>
        simp only [List.nil_append] at heq
        injection heq with h1 h2
        refine ⟨[], f :: t, ?_, by simp⟩
        simp only [List.nil_append]
        rw [← h1]
      | cons p pre₂ =>
        simp only [List.cons_append] at heq
        injection heq with h1 h2
        refine ⟨a :: f :: pre₂, post, ?_, ?_⟩
        · simp only [List.cons_append]
          rw [← h2]
        · have hpm : a.mtime < (pyMax a t).mtime := by
            have := hlt p (List.mem_cons_self p pre₂)
            rw [← h1] at this
            exact this
          intro g hg
          rcases List.mem_cons.mp hg with hga | hg'
          · rw [hga]; exact hpm
          · rcases List.mem_cons.mp hg' with hgf | hg''
            · rw [hgf]
              exact Nat.lt_of_le_of_lt (Nat.le_of_not_lt h) hpm
            · refine hlt g (List.mem_cons_of_mem p ?_)
              exact hg''

/-- With no matching file (or a missing directory), the resolver returns
`none`. -/
theorem encontrar_none_of_no_match (dirExists : Bool) (listing : List FileEntry)
    (padrao : List Char)
    (h : ∀ f ∈ listing, containsSub f.name padrao = false) :
    encontrar_arquivo_mais_recente dirExists listing padrao = none := by
  have hm : matchesOf listing padrao = [] :=
    List.filter_eq_nil_iff.mpr (by intro f hf; simp [h f hf])
  unfold encontrar_arquivo_mais_recente
  cases dirExists <;> simp [hm]

/-- C4, amended part. The resolver, on a directory with at least one
matching file, returns a matching file of maximal modification time; among
several files sharing that maximal time it returns the one that comes first
in the directory's listing order (Python's `max` keeps the incumbent on
ties), not the lexicographically least path. -/
theorem C4_resolver_first_max (listing : List FileEntry) (padrao : List Char)
    (h : matchesOf listing padrao ≠ []) :
    ∃ f pre post,
      encontrar_arquivo_mais_recente true listing padrao = some f ∧
      matchesOf listing padrao = pre ++ f :: post ∧
      (∀ g ∈ matchesOf listing padrao, g.mtime ≤ f.mtime) ∧
      (∀ g ∈ pre, g.mtime < f.mtime) := by
  unfold encontrar_arquivo_mais_recente
  cases hm : matchesOf listing padrao with
  | nil => exact absurd hm h
  | cons a rest =>
    obtain ⟨pre, post, heq, hlt⟩ := pyMax_first rest a
    exact ⟨pyMax a rest, pre, post, by simp, heq,
      fun g hg => pyMax_ge rest a g hg, hlt⟩

/-- Witness for C4's amended theorem at a concrete directory. -/
theorem C4_resolver_first_max_witness :
    matchesOf [⟨chars "r_old.json", 3⟩, ⟨chars "r_new.json", 9⟩] (chars "r_") ≠ [] ∧
    (∃ f pre post,
      encontrar_arquivo_mais_recente true
          [⟨chars "r_old.json", 3⟩, ⟨chars "r_new.json", 9⟩] (chars "r_") = some f ∧
      matchesOf [⟨chars "r_old.json", 3⟩, ⟨chars "r_new.json", 9⟩] (chars "r_")
        = pre ++ f :: post ∧
      (∀ g ∈ matchesOf [⟨chars "r_old.json", 3⟩, ⟨chars "r_new.json", 9⟩] (chars "r_"),
        g.mtime ≤ f.mtime) ∧
      (∀ g ∈ pre, g.mtime < f.mtime)) :=
  ⟨by decide,
   C4_resolver_first_max [⟨chars "r_old.json", 3⟩, ⟨chars "r_new.json", 9⟩]
     (chars "r_") (by decide)⟩

/-- C4, counterexample to the claim as stated. Two directories hold the same
two files, tied at the same modification timestamp; the resolver returns
whichever file its listing presents first. Any tie-break determined by the
paths themselves — in particular lexicographic path order, as the claim
states — would return the same file for both listings. -/
theorem C4_counterexample :
    encontrar_arquivo_mais_recente true
        [⟨chars "b.json", 5⟩, ⟨chars "a.json", 5⟩] (chars "json")
      = some ⟨chars "b.json", 5⟩ ∧
    encontrar_arquivo_mais_recente true
        [⟨chars "a.json", 5⟩, ⟨chars "b.json", 5⟩] (chars "json")
      = some ⟨chars "a.json", 5⟩ ∧
    (⟨chars "a.json", 5⟩ : FileEntry) ≠ ⟨chars "b.json", 5⟩ := by decide

/-! ### Helper lemmas about the Monitor's retention pass -/

theorem sortByMtime_perm (l : List FileEntry) : (sortByMtime l).Perm l :=
  List.perm_insertionSort mtimeLe l

theorem sortByMtime_sorted (l : List FileEntry) : (sortByMtime l).Pairwise mtimeLe :=
  List.sorted_insertionSort mtimeLe l

/-- In the mtime-sorted listing, everything in the first `k` entries is no
newer than anything after them. -/
theorem sorted_take_le_drop (l : List FileEntry) (k : Nat) :
    ∀ x ∈ (sortByMtime l).take k, ∀ y ∈ (sortByMtime l).drop k,
      x.mtime ≤ y.mtime := by
  have hs : ((sortByMtime l).take k ++ (sortByMtime l).drop k).Pairwise mtimeLe := by
    rw [List.take_append_drop]
    exact sortByMtime_sorted l
  exact fun x hx y hy => (List.pairwise_append.mp hs).2.2 x hx y hy

/-- The retention pass only deletes: the surviving listing is a sublist of
the original one (kept files keep their identity, order and timestamps). -/
theorem limpar_sublist (listing : List FileEntry) (m : Nat) :
    (limpar_arquivos_antigos listing m).Sublist listing := by
  unfold limpar_arquivos_antigos
  by_cases h : listing.length ≤ m
  · simp [h]
  · simp only [h, if_false]
    exact List.filter_sublist listing

theorem sortByMtime_length (l : List FileEntry) :
    (sortByMtime l).length = l.length :=
  (sortByMtime_perm l).length_eq

/-- Any file the retention pass deletes is at least as old as every file it
keeps, and deletion can only happen when the directory held more than the
limit. -/
theorem limpar_removed_le (listing : List FileEntry) (m : Nat) :
    ∀ f ∈ listing, f ∉ limpar_arquivos_antigos listing m →
      m < listing.length ∧
      ∀ g ∈ limpar_arquivos_antigos listing m, f.mtime ≤ g.mtime := by
  intro f hf hnf
  unfold limpar_arquivos_antigos at hnf ⊢
  by_cases h : listing.length ≤ m
  · simp only [h, if_true] at hnf
    exact absurd hf hnf
  · simp only [h, if_false] at hnf ⊢
    refine ⟨Nat.lt_of_not_le h, ?_⟩
    set removidos := pyPrefixSlice (sortByMtime listing) m with hrem
    have hfrem : f ∈ removidos := by
      by_contra hcon
      exact hnf (List.mem_filter.mpr ⟨hf, by simpa using hcon⟩)
    have hm : m ≠ 0 := by
      intro h0
      rw [hrem, h0] at hfrem
      unfold pyPrefixSlice at hfrem
      simp at hfrem
    have hremtake : removidos = (sortByMtime listing).take (listing.length - m) := by
      rw [hrem]
      unfold pyPrefixSlice
      rw [if_neg hm, sortByMtime_length]
    have hftk : f ∈ (sortByMtime listing).take (listing.length - m) := by
      rw [← hremtake]
      exact hfrem
    intro g hg
    have hgl : g ∈ listing := (List.mem_filter.mp hg).1
    have hgrem : g ∉ removidos := by
      have := (List.mem_filter.mp hg).2
      simpa using this
    have hgs : g ∈ sortByMtime listing := (sortByMtime_perm listing).mem_iff.mpr hgl
    have hsplit : sortByMtime listing
        = removidos ++ (sortByMtime listing).drop (listing.length - m) := by
      rw [hremtake, List.take_append_drop]
    have hgd : g ∈ (sortByMtime listing).drop (listing.length - m) := by
      rw [hsplit] at hgs
      rcases List.mem_append.mp hgs with htk | hdp
      · exact absurd htk hgrem
      · exact hdp
    exact sorted_take_le_drop listing (listing.length - m) f hftk g hgd

/-- When the directory holds distinct files and exceeds the limit, the
retention pass keeps exactly `m` files (the `m` newest). -/
theorem limpar_length (listing : List FileEntry) (m : Nat)
    (hnd : listing.Nodup) (hm : m ≠ 0) :
    (limpar_arquivos_antigos listing m).length = min listing.length m := by
  unfold limpar_arquivos_antigos
  by_cases h : listing.length ≤ m
  · simp [h, Nat.min_eq_left h]
  · simp only [h, if_false]
    set removidos := pyPrefixSlice (sortByMtime listing) m with hrem
    have hremtake : removidos = (sortByMtime listing).take (listing.length - m) := by
      rw [hrem]
      unfold pyPrefixSlice
      rw [if_neg hm, sortByMtime_length]
    have hsplit : sortByMtime listing
        = removidos ++ (sortByMtime listing).drop (listing.length - m) := by
      rw [hremtake, List.take_append_drop]
    have hsnd : (sortByMtime listing).Nodup :=
      (sortByMtime_perm listing).symm.nodup hnd
    have hperm : (listing.filter (fun f => decide (f ∉ removidos))).Perm
        ((sortByMtime listing).filter (fun f => decide (f ∉ removidos))) :=
      ((sortByMtime_perm listing).symm.filter _)
    have hfilter : (sortByMtime listing).filter (fun f => decide (f ∉ removidos))
        = (sortByMtime listing).drop (listing.length - m) := by
      conv =>
        lhs
        rw [hsplit]
      rw [List.filter_append]
      have h1 : removidos.filter (fun f => decide (f ∉ removidos)) = [] := by
        apply List.filter_eq_nil_iff.mpr
        intro a ha
        simp [ha]
      have h2 : ((sortByMtime listing).drop (listing.length - m)).filter
          (fun f => decide (f ∉ removidos))
          = (sortByMtime listing).drop (listing.length - m) := by
        apply List.filter_eq_self.mpr
        intro a ha
        have hdisj : a ∉ removidos := by
          rw [hsplit] at hsnd
          have := List.disjoint_of_nodup_append hsnd
          intro hcon
          exact (List.disjoint_right.mp this) ha hcon
        simpa using hdisj
      rw [h1, h2, List.nil_append]
    have hlen : ((sortByMtime listing).drop (listing.length - m)).length = m := by
      rw [List.length_drop, sortByMtime_length]
      omega
    rw [hperm.length_eq, hfilter, hlen, Nat.min_eq_right (Nat.le_of_lt (Nat.lt_of_not_le h))]

/-- C5, amended. The Monitor's retention pass only deletes files — every
surviving file is one of the directory's original files, unchanged and in
its original order — and it only deletes files at least as old as everything
it keeps, and only when the directory exceeded the limit. But it does not
distinguish files by creator: it ranks every file in the status directory by
modification time, so a file the Monitor did not create is deleted like any
other once it falls among the oldest beyond the retention limit. -/
theorem C5_retention_only_deletes_oldest (listing : List FileEntry) (m : Nat) :
    (limpar_arquivos_antigos listing m).Sublist listing ∧
    ∀ f ∈ listing, f ∉ limpar_arquivos_antigos listing m →
      m < listing.length ∧
      ∀ g ∈ limpar_arquivos_antigos listing m, f.mtime ≤ g.mtime :=
  ⟨limpar_sublist listing m, limpar_removed_le listing m⟩

/-- A status directory holding ten Monitor snapshot files (mtimes 2..11) and
one foreign file `notes.txt` that the Monitor did not create, which happens
to be the oldest file present. -/
def exStatusListing : List FileEntry :=
  [⟨chars "notes.txt", 1⟩,
   ⟨chars "status_20250101_090000.json", 2⟩,
   ⟨chars "status_20250101_090100.json", 3⟩,
   ⟨chars "status_20250101_090200.json", 4⟩,
   ⟨chars "status_20250101_090300.json", 5⟩,
   ⟨chars "status_20250101_090400.json", 6⟩,
   ⟨chars "status_20250101_090500.json", 7⟩,
   ⟨chars "status_20250101_090600.json", 8⟩,
   ⟨chars "status_20250101_090700.json", 9⟩,
   ⟨chars "status_20250101_090800.json", 10⟩,
   ⟨chars "status_20250101_090900.json", 11⟩]

/-- C5, counterexample to the claim as stated: a retention pass over a
status directory containing a file the Monitor did not create
(`notes.txt`, the oldest of 11 files, limit 10) deletes that foreign
file. -/
theorem C5_counterexample :
    (⟨chars "notes.txt", 1⟩ : FileEntry) ∈ exStatusListing ∧
    (⟨chars "notes.txt", 1⟩ : FileEntry) ∉
      limpar_arquivos_antigos exStatusListing 10 := by decide

/-- Witness: C5's amended theorem applied to the same concrete directory. -/
theorem C5_retention_witness :
    10 < exStatusListing.length ∧
    ∀ g ∈ limpar_arquivos_antigos exStatusListing 10,
      (⟨chars "notes.txt", 1⟩ : FileEntry).mtime ≤ g.mtime :=
  (C5_retention_only_deletes_oldest exStatusListing 10).2
    ⟨chars "notes.txt", 1⟩ (by decide) (by decide)

/-- C7: after a Monitor cycle persists a snapshot into a status directory of
distinct files, at most 10 files remain (exactly 10 whenever more than 10
were present); what remains is a sub-listing of what was there (the new
snapshot included), and no deleted file is more recent than any kept file —
deletion is oldest-first. -/
theorem C7_retention_bound (dir : List FileEntry) (novo : FileEntry)
    (hnd : (dir ++ [novo]).Nodup) :
    (salvar_status dir novo).length = min (dir.length + 1) 10 ∧
    (salvar_status dir novo).Sublist (dir ++ [novo]) ∧
    ∀ f ∈ dir ++ [novo], f ∉ salvar_status dir novo →
      ∀ g ∈ salvar_status dir novo, f.mtime ≤ g.mtime := by
  refine ⟨?_, limpar_sublist _ _, ?_⟩
  · have := limpar_length (dir ++ [novo]) 10 hnd (by decide)
    simpa [salvar_status] using this
  · intro f hf hnf g hg
    exact (limpar_removed_le (dir ++ [novo]) 10 f hf hnf).2 g hg

/-- A status directory already holding 15 snapshot files, mtimes 1..15. -/
def exDir15 : List FileEntry :=
  [⟨chars "s01.json", 1⟩, ⟨chars "s02.json", 2⟩, ⟨chars "s03.json", 3⟩,
   ⟨chars "s04.json", 4⟩, ⟨chars "s05.json", 5⟩, ⟨chars "s06.json", 6⟩,
   ⟨chars "s07.json", 7⟩, ⟨chars "s08.json", 8⟩, ⟨chars "s09.json", 9⟩,
   ⟨chars "s10.json", 10⟩, ⟨chars "s11.json", 11⟩, ⟨chars "s12.json", 12⟩,
   ⟨chars "s13.json", 13⟩, ⟨chars "s14.json", 14⟩, ⟨chars "s15.json", 15⟩]

/-- Witness: the retention bound at the spec's own example — 15 snapshot
files plus the cycle's new one leave exactly 10. -/
theorem C7_retention_bound_witness :
    (salvar_status exDir15 ⟨chars "s16.json", 16⟩).length = 10 := by
  have h := (C7_retention_bound exDir15 ⟨chars "s16.json", 16⟩ (by decide)).1
  simpa [exDir15] using h

/-! ### The full pipeline run (claims C1, C2) -/

/-- C1, amended. For the collect, process and organize stages a non-zero
worker exit is fatal: the stage raises an error carrying the captured
stderr, and no retry happens (each stage call consumes exactly one
subprocess run). The index stage does not follow this rule: its non-zero
exit is caught inside `executar_indexacao` and converted into the result
`{success: False, total: 0}`, and a full run whose index worker exits
non-zero still completes with exit code 0, merely marking the index stage as
`falha` in the saved report. -/
theorem C1_nonzero_exit_fatal_except_index :
    (∀ (sw : StageWorld) (dataStr : List Char) (secao : Nat),
      sw.proc.exitCode ≠ 0 →
      executar_coleta sw dataStr secao = .error (.execFailed sw.proc.stderr)) ∧
    (∀ (sw : StageWorld) (inputName : List Char),
      sw.proc.exitCode ≠ 0 →
      executar_processamento sw inputName = .error (.execFailed sw.proc.stderr)) ∧
    (∀ (sw : StageWorld) (inputName formato : List Char),
      sw.proc.exitCode ≠ 0 →
      executar_organizacao sw inputName formato = .error (.execFailed sw.proc.stderr)) ∧
    (∀ (proc : ProcResult) (loads : List Char → Option IndexResult),
      proc.exitCode ≠ 0 →
      executar_indexacao proc loads = { success := false, total := .num 0 }) ∧
    (∀ w : World, w.indexacao.exitCode ≠ 0 →
      ∀ rel, (modo_completo w).relatorio = some rel →
        rel.indexacaoStatus = .falha ∧ (modo_completo w).exitCode = 0) := by
  refine ⟨?_, ?_, ?_, ?_, ?_⟩
  · intro sw dataStr secao h
    unfold executar_coleta
    rw [if_pos h]
  · intro sw inputName h
    unfold executar_processamento
    rw [if_pos h]
  · intro sw inputName formato h
    unfold executar_organizacao
    rw [if_pos h]
  · intro proc loads h
    unfold executar_indexacao
    rw [if_pos h]
  · intro w h rel hrel
    have hidx : executar_indexacao w.indexacao w.loads
        = { success := false, total := .num 0 } := by
      unfold executar_indexacao
      rw [if_pos h]
    cases h1 : executar_coleta w.coleta w.dataStr w.secao with
    | error e => simp [modo_completo, h1] at hrel
    | ok a1 =>
      cases h2 : executar_processamento w.processamento a1 with
      | error e => simp [modo_completo, h1, h2] at hrel
      | ok a2 =>
        cases h3 : executar_organizacao w.organizacao a2 w.formato with
        | error e => simp [modo_completo, h1, h2, h3] at hrel
        | ok a3 =>
          simp only [modo_completo, h1, h2, h3, hidx, Option.some.injEq] at hrel
          subst hrel
          simp [modo_completo, h1, h2, h3, hidx]

/-- A full-run world in which the first three workers succeed and produce
their conventionally named artifacts, while the index worker exits 2. -/
def exWorldC1 : World :=
  { dataStr := chars "2024-03-01"
    secao := 3
    formato := chars "csv"
    coleta := ⟨⟨0, [], []⟩, true, []⟩
    processamento := ⟨⟨0, [], []⟩, true, []⟩
    organizacao := ⟨⟨0, [], []⟩, true, []⟩
    indexacao := ⟨2, [], chars "elasticsearch unreachable"⟩
    loads := fun _ => none }

/-- C1, counterexample to the claim as stated: the index worker exits
non-zero, yet the full run does not fail — `main` returns 0 and writes a
report that merely marks the index stage `falha`. -/
theorem C1_counterexample :
    exWorldC1.indexacao.exitCode ≠ 0 ∧
    (modo_completo exWorldC1).exitCode = 0 ∧
    (modo_completo exWorldC1).relatorio.map (fun r => r.indexacaoStatus)
      = some .falha := by decide

/-- Witness: C1's amended theorem applied at concrete failing workers. -/
theorem C1_nonzero_exit_witness :
    executar_coleta ⟨⟨7, [], chars "boom"⟩, true, []⟩ (chars "2024-03-01") 3
      = .error (.execFailed (chars "boom")) ∧
    executar_indexacao ⟨7, [], chars "boom"⟩ (fun _ => none)
      = { success := false, total := .num 0 } :=
  ⟨C1_nonzero_exit_fatal_except_index.1 ⟨⟨7, [], chars "boom"⟩, true, []⟩
     (chars "2024-03-01") 3 (by decide),
   C1_nonzero_exit_fatal_except_index.2.2.2.1 ⟨7, [], chars "boom"⟩
     (fun _ => none) (by decide)⟩

/-- C2, amended. When stage 2 (process) fails in a full run, stages 3
(organize) and 4 (index) are never invoked and the invocation exits with
code 1 — but no run report results at all: the report is written only after
stage 4, so nothing marks the trailing stages as pending. -/
theorem C2_stage2_failure_aborts (w : World) (a1 : List Char) (e : StageError)
    (h1 : executar_coleta w.coleta w.dataStr w.secao = .ok a1)
    (h2 : executar_processamento w.processamento a1 = .error e) :
    modo_completo w = ⟨1, none, [.coleta, .processamento]⟩ ∧
    Etapa.organizacao ∉ (modo_completo w).spawned ∧
    Etapa.indexacao ∉ (modo_completo w).spawned ∧
    (modo_completo w).relatorio = none := by
  have hrun : modo_completo w = ⟨1, none, [.coleta, .processamento]⟩ := by
    simp [modo_completo, h1, h2]
  refine ⟨hrun, ?_, ?_, ?_⟩ <;> rw [hrun] <;> decide

/-- A full-run world in which collection succeeds and the process worker
exits 3. -/
def exWorldC2 : World :=
  { dataStr := chars "2024-03-01"
    secao := 3
    formato := chars "csv"
    coleta := ⟨⟨0, [], []⟩, true, []⟩
    processamento := ⟨⟨3, [], chars "spacy model missing"⟩, true, []⟩
    organizacao := ⟨⟨0, [], []⟩, true, []⟩
    indexacao := ⟨0, [], []⟩
    loads := fun _ => none }

/-- C2, counterexample to the claim as stated: stage 2 fails and indeed
stages 3-4 are never spawned — but the outcome carries no report whatsoever
(`relatorio = none`), so no report marks stages 3-4 as pending. -/
theorem C2_counterexample :
    exWorldC2.processamento.proc.exitCode ≠ 0 ∧
    modo_completo exWorldC2 = ⟨1, none, [.coleta, .processamento]⟩ := by decide

/-- Witness: C2's amended theorem at the concrete stage-2-failing world. -/
theorem C2_stage2_failure_witness :
    modo_completo exWorldC2 = ⟨1, none, [.coleta, .processamento]⟩ ∧
    Etapa.organizacao ∉ (modo_completo exWorldC2).spawned ∧
    Etapa.indexacao ∉ (modo_completo exWorldC2).spawned ∧
    (modo_completo exWorldC2).relatorio = none :=
  C2_stage2_failure_aborts exWorldC2 (chars "2024-03-01_secao3.json")
    (.execFailed (chars "spacy model missing")) (by rfl) (by rfl)

/-! ### Partial runs (claims C3, C6) -/

/-- C3, evaluated at the failing input (a code bug, not a spec bug): for
date 2024-03-01, section 3, the organize stage names its artifact
`2024-03-01_secao3.csv` — the `processado_` prefix stripped and the format
extension applied — but the partial index run (modo `busca`) searches the
csv directory for the substring `processado_2024-03-01_secao3`, which no
organize-produced name contains. So even with the organize artifact present,
the partial index run exits 1 having never spawned the index worker. -/
theorem C3_busca_pattern_never_matches :
    executar_organizacao ⟨⟨0, [], []⟩, true, []⟩
        (chars "processado_2024-03-01_secao3.json") (chars "csv")
      = .ok (chars "2024-03-01_secao3.csv") ∧
    containsSub (chars "2024-03-01_secao3.csv")
        (chars "processado_" ++ chars "2024-03-01" ++ chars "_secao" ++ natChars 3)
      = false ∧
    modo_busca (chars "2024-03-01") 3 true
        [⟨chars "2024-03-01_secao3.csv", 100⟩] ⟨0, [], []⟩ (fun _ => none)
      = ⟨1, false, none⟩ := by
  refine ⟨by rfl, by decide, ?_⟩
  rfl

/-- C6: a partial process run whose raw-data directory holds no file
matching the `{date}_secao{N}` pattern (whatever the directory's existence
flag) logs an error and returns exit code 1, and the process worker is
never spawned. -/
theorem C6_no_input_no_worker (dataStr : List Char) (secao : Nat)
    (dirExists : Bool) (listing : List FileEntry) (sw : StageWorld)
    (h : ∀ f ∈ listing,
      containsSub f.name (dataStr ++ chars "_secao" ++ natChars secao) = false) :
    modo_processamento dataStr secao dirExists listing sw = ⟨1, false, none⟩ := by
  unfold modo_processamento
  rw [encontrar_none_of_no_match dirExists listing _ h]

/-- Witness: C6's theorem at a concrete raw directory holding only files of
another date and section. -/
theorem C6_no_input_no_worker_witness :
    modo_processamento (chars "2024-03-01") 3 true
        [⟨chars "2024-02-28_secao1.json", 5⟩] ⟨⟨0, [], []⟩, true, []⟩
      = ⟨1, false, none⟩ :=
  C6_no_input_no_worker (chars "2024-03-01") 3 true
    [⟨chars "2024-02-28_secao1.json", 5⟩] ⟨⟨0, [], []⟩, true, []⟩ (by decide)

/-! ### Monitor loop and degraded index success (claims C8, C9) -/

/-- C8: over any finite trace of monitor iterations, the loop exits if and
only if some read of the `executando` flag was `False` (the flag is written
`False` only by `parar`); a body failure never ends or escapes the loop —
each iteration up to the first `False` flag contributes exactly one step,
a completed body or a caught failure followed by the fixed 10-second
backoff, after which the loop goes on. -/
theorem C8_loop_exits_only_by_stop (trace : List (Bool × IterOutcome)) :
    ((loop_monitoramento trace).2 = true ↔ false ∈ trace.map Prod.fst) ∧
    (loop_monitoramento trace).1
      = (trace.takeWhile (fun p => p.1)).map
          (fun p =>
            match p.2 with
            | .ok => LoopStep.bodyCompleted
            | .raisesError => LoopStep.bodyFailedBackoff 10) := by
  induction trace with
  | nil => simp [loop_monitoramento]
  | cons hd rest ih =>
    obtain ⟨b, out⟩ := hd
    cases b with
    | false =>
      constructor
      · simp [loop_monitoramento]
      · simp [loop_monitoramento, List.takeWhile]
    | true =>
      cases out with
      | ok =>
        constructor
        · simpa [loop_monitoramento] using ih.1
        · simpa [loop_monitoramento, List.takeWhile] using ih.2
      | raisesError =>
        constructor
        · simpa [loop_monitoramento] using ih.1
        · simpa [loop_monitoramento, List.takeWhile] using ih.2

/-- A short concrete monitor trace: two good iterations around one failing
iteration, then a stop request. -/
def exTrace : List (Bool × IterOutcome) :=
  [(true, .ok), (true, .raisesError), (true, .ok), (false, .ok)]

/-- Witness: C8's theorem on the concrete trace — the failing iteration
yields a caught error plus 10-second backoff and the loop continues; the
exit happens at the `False` flag. -/
theorem C8_loop_witness :
    (loop_monitoramento exTrace).2 = true ∧
    (loop_monitoramento exTrace).1
      = [LoopStep.bodyCompleted, LoopStep.bodyFailedBackoff 10,
         LoopStep.bodyCompleted] :=
  ⟨(C8_loop_exits_only_by_stop exTrace).1.mpr (by decide),
   ((C8_loop_exits_only_by_stop exTrace).2).trans (by decide)⟩

/-- C9: an index worker that exits 0 with a stdout from which no JSON object
can be parsed (no regex candidate, or the decoder raising on every
candidate) still yields the optimistic result
`{success: True, total: 'desconhecido'}`; reaching the report, the index
stage is marked `concluido` and the full run exits 0. -/
theorem C9_degraded_success :
    (∀ (proc : ProcResult) (loads : List Char → Option IndexResult),
      proc.exitCode = 0 →
      (∀ s, jsonCandidate proc.stdout = some s → loads s = none) →
      executar_indexacao proc loads = { success := true, total := .desconhecido }) ∧
    (∀ w : World, w.indexacao.exitCode = 0 →
      (∀ s, jsonCandidate w.indexacao.stdout = some s → w.loads s = none) →
      ∀ rel, (modo_completo w).relatorio = some rel →
        rel.indexacaoStatus = .concluido ∧ (modo_completo w).exitCode = 0) := by
  have hbase : ∀ (proc : ProcResult) (loads : List Char → Option IndexResult),
      proc.exitCode = 0 →
      (∀ s, jsonCandidate proc.stdout = some s → loads s = none) →
      executar_indexacao proc loads = { success := true, total := .desconhecido } := by
    intro proc loads h0 hno
    unfold executar_indexacao
    rw [if_neg (by simp [h0])]
    cases hc : jsonCandidate proc.stdout with
    | none => rfl
    | some s => simp [hno s hc]
  refine ⟨hbase, ?_⟩
  intro w h0 hno rel hrel
  have hidx := hbase w.indexacao w.loads h0 hno
  cases h1 : executar_coleta w.coleta w.dataStr w.secao with
  | error e => simp [modo_completo, h1] at hrel
  | ok a1 =>
    cases h2 : executar_processamento w.processamento a1 with
    | error e => simp [modo_completo, h1, h2] at hrel
    | ok a2 =>
      cases h3 : executar_organizacao w.organizacao a2 w.formato with
      | error e => simp [modo_completo, h1, h2, h3] at hrel
      | ok a3 =>
        simp only [modo_completo, h1, h2, h3, hidx, Option.some.injEq] at hrel
        subst hrel
        simp [modo_completo, h1, h2, h3, hidx]

/-- Witness: C9's theorem at a concrete index worker whose stdout has no
brace-delimited candidate at all, with a decoder that always raises. -/
theorem C9_degraded_success_witness :
    executar_indexacao ⟨0, chars "Indexacao concluida sem payload", []⟩
        (fun _ => none)
      = { success := true, total := .desconhecido } :=
  C9_degraded_success.1 ⟨0, chars "Indexacao concluida sem payload", []⟩
    (fun _ => none) (by decide) (fun s h => rfl)

/-! ### Default date and section (claim C10) -/

/-- C10: with no `--data` argument the coordinator targets the previous
calendar day (`datetime.now() - timedelta(days=1)`), and with no `--secao`
argument it targets section 3, in every pipeline mode (the arguments are
resolved once, before the mode dispatch). -/
theorem C10_defaults (strptime : List Char → Option Int) (hoje : Int) :
    chooseData none strptime hoje = some (hoje - 1) ∧ chooseSecao none = 3 :=
  ⟨rfl, rfl⟩
